import Mathlib

/-!
Verification of the Coyote host-side mailbox / DMA protocol.

The development embeds, from the sources:
  - the mailbox codec of examples/jigsaw_minus_nw/sw/src/main.cpp
    (fixed byte layout over a shared memory region),
  - the MMIO proxy client (read_mmio / write_mmio) of the same file,
  - the DMA benchmark sequence (benchmark_run) of both the indirect
    (jigsaw_minus_nw) and the baseline (jigsaw_baseline) variants,
  - the allocation-failure handling of the three program entry points.

Machine words are modelled as Nat with explicit reduction mod 2^64 where an
8-byte store/load truncates; the shared region is a byte map Nat -> Nat.
-/

namespace Coyote

/-- A shared memory region, as a map from byte offset to byte value. -/
abbrev Region := Nat → Nat

/-- Store one byte at offset i (C: base[i] = v). -/
def updateByte (r : Region) (i v : Nat) : Region :=
  fun j => if j = i then v else r j

/-- Store the n low-order bytes of v at offsets off, off+1, ... little-endian,
as an x86 store of an n-byte integer does (C: *(uint64_t*)(base + off) = v). -/
def writeLE (r : Region) (off : Nat) : Nat → Nat → Region
  | 0, _ => r
  | n + 1, v => writeLE (updateByte r off (v % 256)) (off + 1) n (v / 256)

/-- Load an n-byte little-endian integer from offset off
(C: *(uint64_t*)(base + off)). -/
def readLE (r : Region) (off : Nat) : Nat → Nat
  | 0 => 0
  | n + 1 => r off + 256 * readLE r (off + 1) n

/-- The byte-store events emitted by writeLE, in store order. -/
def writeLEEvs (off : Nat) : Nat → Nat → List (Nat × Nat)
  | 0, _ => []
  | n + 1, v => (off, v % 256) :: writeLEEvs (off + 1) n (v / 256)

/-! ## Register maps (enum values from the sources) -/

namespace MinusNw

/-- DMA engine register addresses, enum DMAEngineRegisters of
examples/jigsaw_minus_nw/sw/src/main.cpp. -/
def DMA_CMD_REG : Nat := 0x00

/-- DMA source address register (enum DMAEngineRegisters). -/
def DMA_SRC_ADDR_REG : Nat := 0x08

/-- DMA destination address register (enum DMAEngineRegisters). -/
def DMA_DST_ADDR_REG : Nat := 0x10

/-- DMA length register (enum DMAEngineRegisters). -/
def DMA_LEN_REG : Nat := 0x18

/-- DMA status register (enum DMAEngineRegisters). -/
def DMA_STATUS_REG : Nat := 0x20

/-- DMA transferred-length register (enum DMAEngineRegisters). -/
def DMA_TX_LEN_REG : Nat := 0x38

/-- Host-control register addresses, enum JigsawHostControlRegisters of
examples/jigsaw_minus_nw/sw/src/main.cpp. -/
def MMIO_VADDR_REG : Nat := 0

/-- Mailbox control / trigger register (enum JigsawHostControlRegisters). -/
def MMIO_CTRL_REG : Nat := 1

/-- Mailbox write-completion status register (enum JigsawHostControlRegisters). -/
def MMIO_WRITE_STATUS_REG : Nat := 2

/-- Mailbox read-completion status register (enum JigsawHostControlRegisters). -/
def MMIO_READ_STATUS_REG : Nat := 3

/-- Owning-process identifier register (enum JigsawHostControlRegisters). -/
def COYOTE_PID_REG : Nat := 4

/-- Size in bytes of the shared region allocated by main of
examples/jigsaw_minus_nw/sw/src/main.cpp (getMem with 16*1024). -/
def allocBytes : Nat := 16 * 1024

/-! ## Mailbox codec

The field stores of read_mmio (lines 56-58) and write_mmio (lines 81-84)
of examples/jigsaw_minus_nw/sw/src/main.cpp, in source order. -/

/-- Encode a mailbox read request: base[24] = 0 (opcode read);
store addr at base+25 (8 bytes); store 0 at base+33 (8 bytes, length). -/
def encodeReadRequest (r : Region) (addr : Nat) : Region :=
  writeLE (writeLE (updateByte r 24 0) 25 8 addr) 33 8 0

/-- Encode a mailbox write request: base[24] = 1 (opcode write);
store addr at base+25; store 0 at base+33 (length); store data at base+41. -/
def encodeWriteRequest (r : Region) (addr data : Nat) : Region :=
  writeLE (writeLE (writeLE (updateByte r 24 1) 25 8 addr) 33 8 0) 41 8 data

/-- Decode the mailbox response: the 8-byte value at region offset 16
(read_mmio line 70). -/
def decodeResponse (r : Region) : Nat :=
  readLE r 16 8

end MinusNw

/-! ## MMIO proxy client state and events -/

/-- The combined host-visible state in the indirect variant: the shared mailbox
region and the device side (DMA register file plus host-control registers). -/
structure MboxState where
  region : Region
  dmaRegs : Nat → Nat
  mmioVaddr : Nat
  mmioCtrl : Nat
  writeStatus : Nat
  readStatus : Nat
  pidReg : Nat

/-- Observable events of one proxied operation: register writes and reads
through the primitive channel (setCSR / getCSR) and byte stores / 8-byte loads
on the mailbox region. -/
inductive Ev where
  | csrW (reg val : Nat)
  | csrR (reg val : Nat)
  | memW (off byte : Nat)
  | memR (off val : Nat)
deriving DecidableEq, Repr

/-- Whether an event is a byte store into the mailbox region. -/
def Ev.isMemW : Ev → Bool
  | .memW _ _ => true
  | _ => false

/-- Modelled from the spec: the FPGA-side mailbox handler is not in the
repository (section 1 of the spec scopes it out as the device); following
sections 3, 4.1 and 8 of the spec, on a trigger the device decodes the request at
the fixed offsets, treats the register file as pure storage, and raises the
corresponding completion status. The one device-defined side effect is the
DMA double of section 8 of the spec: a write of a command value with bit 0 set
to the command register completes a transfer instantly, setting status bit 0
and setting the transferred-length register to txLen applied to the requested
length. -/
def deviceStep (txLen : Nat → Nat) (s : MboxState) : MboxState :=
  let op := s.region 24
  let addr := readLE s.region 25 8
  if op = 1 then
    let data := readLE s.region 41 8
    let regs1 : Nat → Nat := fun r => if r = addr then data else s.dmaRegs r
    let regs2 : Nat → Nat :=
      if addr = MinusNw.DMA_CMD_REG ∧ data % 2 = 1 then
        fun r =>
          if r = MinusNw.DMA_STATUS_REG then 1
          else if r = MinusNw.DMA_TX_LEN_REG then txLen (regs1 MinusNw.DMA_LEN_REG)
          else regs1 r
      else regs1
    { s with dmaRegs := regs2, writeStatus := 1 }
  else
    { s with region := writeLE s.region 16 8 (s.dmaRegs addr), readStatus := 1 }

/-- cThread.setCSR as seen by this program: writes a host-control register;
writing 1 to the control register triggers the mailbox handler of the device. -/
def setCSR (txLen : Nat → Nat) (s : MboxState) (v reg : Nat) : MboxState :=
  if reg = MinusNw.MMIO_VADDR_REG then { s with mmioVaddr := v }
  else if reg = MinusNw.MMIO_CTRL_REG then
    let s' := { s with mmioCtrl := v }
    if v = 1 then deviceStep txLen s' else s'
  else if reg = MinusNw.MMIO_WRITE_STATUS_REG then { s with writeStatus := v }
  else if reg = MinusNw.MMIO_READ_STATUS_REG then { s with readStatus := v }
  else if reg = MinusNw.COYOTE_PID_REG then { s with pidReg := v }
  else s

/-- cThread.getCSR as seen by this program: reads a host-control register. -/
def getCSR (s : MboxState) (reg : Nat) : Nat :=
  if reg = MinusNw.MMIO_VADDR_REG then s.mmioVaddr
  else if reg = MinusNw.MMIO_CTRL_REG then s.mmioCtrl
  else if reg = MinusNw.MMIO_WRITE_STATUS_REG then s.writeStatus
  else if reg = MinusNw.MMIO_READ_STATUS_REG then s.readStatus
  else if reg = MinusNw.COYOTE_PID_REG then s.pidReg
  else 0

/-- The polling wait of read_mmio / write_mmio: re-read the given status
register (sleeping in between) until it equals 1. Fuel-indexed; none models
the unbounded hang when the status never reaches 1. Polling does not change
the state; the returned list is the trace of status reads. -/
def pollCSR (s : MboxState) (reg : Nat) : Nat → Option (List Ev)
  | 0 => none
  | n + 1 =>
    let v := getCSR s reg
    if v = 1 then some [Ev.csrR reg v]
    else (pollCSR s reg n).map fun tr => Ev.csrR reg v :: tr

/-- The byte-store events of encodeReadRequest, in source order. -/
def encodeReadEvs (addr : Nat) : List Ev :=
  Ev.memW 24 0 ::
    ((writeLEEvs 25 8 addr).map (fun p => Ev.memW p.1 p.2) ++
     (writeLEEvs 33 8 0).map (fun p => Ev.memW p.1 p.2))

/-- The byte-store events of encodeWriteRequest, in source order. -/
def encodeWriteEvs (addr data : Nat) : List Ev :=
  Ev.memW 24 1 ::
    ((writeLEEvs 25 8 addr).map (fun p => Ev.memW p.1 p.2) ++
     (writeLEEvs 33 8 0).map (fun p => Ev.memW p.1 p.2) ++
     (writeLEEvs 41 8 data).map (fun p => Ev.memW p.1 p.2))

/-- read_mmio of examples/jigsaw_minus_nw/sw/src/main.cpp (lines 48-71):
clear the read status, encode a read request into the region, trigger via the
control register, poll the read status until it equals 1, then return the
8-byte response at offset 16. Returns the value, the new state, and the
event trace. -/
def read_mmio (txLen : Nat → Nat) (s : MboxState) (addr fuel : Nat) :
    Option (Nat × MboxState × List Ev) :=
  let s1 := setCSR txLen s 0 MinusNw.MMIO_READ_STATUS_REG
  let s2 : MboxState := { s1 with region := MinusNw.encodeReadRequest s1.region addr }
  let s3 := setCSR txLen s2 1 MinusNw.MMIO_CTRL_REG
  (pollCSR s3 MinusNw.MMIO_READ_STATUS_REG fuel).map fun ptr =>
    let v := MinusNw.decodeResponse s3.region
    (v, s3,
      Ev.csrW MinusNw.MMIO_READ_STATUS_REG 0 ::
        (encodeReadEvs addr ++
          Ev.csrW MinusNw.MMIO_CTRL_REG 1 :: (ptr ++ [Ev.memR 16 v])))

/-- write_mmio of examples/jigsaw_minus_nw/sw/src/main.cpp (lines 74-93):
clear the write status, encode a write request into the region, trigger via
the control register, poll the write status until it equals 1. -/
def write_mmio (txLen : Nat → Nat) (s : MboxState) (addr data fuel : Nat) :
    Option (MboxState × List Ev) :=
  let s1 := setCSR txLen s 0 MinusNw.MMIO_WRITE_STATUS_REG
  let s2 : MboxState := { s1 with region := MinusNw.encodeWriteRequest s1.region addr data }
  let s3 := setCSR txLen s2 1 MinusNw.MMIO_CTRL_REG
  (pollCSR s3 MinusNw.MMIO_WRITE_STATUS_REG fuel).map fun ptr =>
    (s3,
      Ev.csrW MinusNw.MMIO_WRITE_STATUS_REG 0 ::
        (encodeWriteEvs addr data ++ Ev.csrW MinusNw.MMIO_CTRL_REG 1 :: ptr))

/-! ## Evaluation of one proxied operation under the synchronous device -/

/-- State after one proxied read of addr: the region carries the encoded read
request and the response, the control register holds 1, the read status is
raised; nothing else changes. -/
def afterRead (s : MboxState) (addr : Nat) : MboxState :=
  { region := writeLE (MinusNw.encodeReadRequest s.region addr) 16 8
      (s.dmaRegs (addr % 2 ^ 64)),
    dmaRegs := s.dmaRegs, mmioVaddr := s.mmioVaddr, mmioCtrl := 1,
    writeStatus := s.writeStatus, readStatus := 1, pidReg := s.pidReg }

/-- Effect of one proxied write on the device register file: pure storage at
the decoded address, except that a command write with bit 0 set also raises
the DMA status bit and latches the transferred length. -/
def writeRegsUpdate (txLen : Nat → Nat) (dmaRegs : Nat → Nat) (addr data : Nat) :
    Nat → Nat :=
  let a := addr % 2 ^ 64
  let d := data % 2 ^ 64
  let regs1 : Nat → Nat := fun r => if r = a then d else dmaRegs r
  if a = MinusNw.DMA_CMD_REG ∧ d % 2 = 1 then
    fun r =>
      if r = MinusNw.DMA_STATUS_REG then 1
      else if r = MinusNw.DMA_TX_LEN_REG then txLen (regs1 MinusNw.DMA_LEN_REG)
      else regs1 r
  else regs1

/-- State after one proxied write of data to addr. -/
def afterWrite (txLen : Nat → Nat) (s : MboxState) (addr data : Nat) : MboxState :=
  { region := MinusNw.encodeWriteRequest s.region addr data,
    dmaRegs := writeRegsUpdate txLen s.dmaRegs addr data,
    mmioVaddr := s.mmioVaddr, mmioCtrl := 1, writeStatus := 1,
    readStatus := s.readStatus, pidReg := s.pidReg }

/-! ## Benchmark sequences (logical register operations) -/

/-- Operations of one benchmark run at the logical-register level: direct
host-control register writes/reads and mailbox-proxied DMA register
writes/reads, each with the value passed or returned. -/
inductive BOp where
  | hostCsrW (reg val : Nat)
  | hostCsrR (reg val : Nat)
  | mmioWr (reg val : Nat)
  | mmioRd (reg val : Nat)
deriving DecidableEq, Repr

/-- The kind of an operation: which constructor and which register, with the
data value erased. Two runs with the same kind sequence take the same control
path and touch the same registers in the same order. -/
def BOp.tag : BOp → Nat × Nat
  | .hostCsrW r _ => (0, r)
  | .hostCsrR r _ => (1, r)
  | .mmioWr r _ => (2, r)
  | .mmioRd r _ => (3, r)

/-- Exit condition of the DMA completion poll of the indirect variant
(main.cpp line 145): the status value masked with 1 equals 1. -/
def dmaPollExitIndirect (raw : Nat) : Bool :=
  raw &&& 1 == 1

/-- Exit condition of the DMA completion poll of the baseline variant
(jigsaw_baseline main.cpp line 59): the status value equals 1 exactly. -/
def dmaPollExitBaseline (v : Nat) : Bool :=
  v == 1

/-- The DMA completion polling loop of the indirect variant (lines 143-151):
repeatedly read the DMA status register through the mailbox and stop once the
masked value equals 1. -/
def dmaStatusPoll (txLen : Nat → Nat) (s : MboxState) :
    Nat → Option (MboxState × List BOp)
  | 0 => none
  | n + 1 =>
    match read_mmio txLen s MinusNw.DMA_STATUS_REG 1 with
    | none => none
    | some (v, s', _) =>
      if dmaPollExitIndirect v then
        some (s', [BOp.mmioRd MinusNw.DMA_STATUS_REG v])
      else
        match dmaStatusPoll txLen s' n with
        | none => none
        | some (s'', ops) => some (s'', BOp.mmioRd MinusNw.DMA_STATUS_REG v :: ops)

namespace MinusNw

/-- benchmark_run of examples/jigsaw_minus_nw/sw/src/main.cpp (lines 42-162):
publish the process id and the mailbox virtual address, read the four DMA
registers, configure and trigger a transfer through the mailbox proxy, poll
for completion, re-read and clear the status, and read back the transferred
length. Returns the final state and the logical-register operation trace. -/
def benchmark_run (txLen : Nat → Nat) (memAddr ctid fuel : Nat) (s : MboxState) :
    Option (MboxState × List BOp) :=
  let sA := Coyote.setCSR txLen s ctid COYOTE_PID_REG
  let sB := Coyote.setCSR txLen sA memAddr MMIO_VADDR_REG
  match read_mmio txLen sB DMA_SRC_ADDR_REG 1 with
  | none => none
  | some (v1, s1, _) =>
  match read_mmio txLen s1 DMA_DST_ADDR_REG 1 with
  | none => none
  | some (v2, s2, _) =>
  match read_mmio txLen s2 DMA_TX_LEN_REG 1 with
  | none => none
  | some (v3, s3, _) =>
  match read_mmio txLen s3 DMA_STATUS_REG 1 with
  | none => none
  | some (v4, s4, _) =>
  let r1 := Coyote.getCSR s4 MMIO_VADDR_REG
  let r2 := Coyote.getCSR s4 COYOTE_PID_REG
  match write_mmio txLen s4 DMA_SRC_ADDR_REG (memAddr + 4096) 1 with
  | none => none
  | some (s5, _) =>
  match read_mmio txLen s5 DMA_SRC_ADDR_REG 1 with
  | none => none
  | some (v5, s6, _) =>
  match write_mmio txLen s6 DMA_LEN_REG 1024 1 with
  | none => none
  | some (s7, _) =>
  match read_mmio txLen s7 DMA_LEN_REG 1 with
  | none => none
  | some (v6, s8, _) =>
  match write_mmio txLen s8 DMA_CMD_REG 1 1 with
  | none => none
  | some (s9, _) =>
  match dmaStatusPoll txLen s9 fuel with
  | none => none
  | some (s10, pollOps) =>
  match read_mmio txLen s10 DMA_STATUS_REG 1 with
  | none => none
  | some (v7, s11, _) =>
  match write_mmio txLen s11 DMA_STATUS_REG 0 1 with
  | none => none
  | some (s12, _) =>
  match read_mmio txLen s12 DMA_TX_LEN_REG 1 with
  | none => none
  | some (v8, s13, _) =>
    some (s13,
      [BOp.hostCsrW COYOTE_PID_REG ctid, BOp.hostCsrW MMIO_VADDR_REG memAddr,
       BOp.mmioRd DMA_SRC_ADDR_REG v1, BOp.mmioRd DMA_DST_ADDR_REG v2,
       BOp.mmioRd DMA_TX_LEN_REG v3, BOp.mmioRd DMA_STATUS_REG v4,
       BOp.hostCsrR MMIO_VADDR_REG r1, BOp.hostCsrR COYOTE_PID_REG r2,
       BOp.mmioWr DMA_SRC_ADDR_REG (memAddr + 4096),
       BOp.mmioRd DMA_SRC_ADDR_REG v5,
       BOp.mmioWr DMA_LEN_REG 1024, BOp.mmioRd DMA_LEN_REG v6,
       BOp.mmioWr DMA_CMD_REG 1] ++ pollOps ++
      [BOp.mmioRd DMA_STATUS_REG v7, BOp.mmioWr DMA_STATUS_REG 0,
       BOp.mmioRd DMA_TX_LEN_REG v8])

/-- The operation trace of benchmark_run, final state dropped. -/
def benchOps (txLen : Nat → Nat) (memAddr ctid fuel : Nat) (s : MboxState) :
    Option (List BOp) :=
  (benchmark_run txLen memAddr ctid fuel s).map Prod.snd

/-- The trace benchmark_run produces under the synchronous device double. -/
def benchExpected (txLen : Nat → Nat) (memAddr ctid : Nat) (s : MboxState) :
    List BOp :=
  [BOp.hostCsrW COYOTE_PID_REG ctid, BOp.hostCsrW MMIO_VADDR_REG memAddr,
   BOp.mmioRd DMA_SRC_ADDR_REG (s.dmaRegs 8 % 2 ^ 64),
   BOp.mmioRd DMA_DST_ADDR_REG (s.dmaRegs 16 % 2 ^ 64),
   BOp.mmioRd DMA_TX_LEN_REG (s.dmaRegs 56 % 2 ^ 64),
   BOp.mmioRd DMA_STATUS_REG (s.dmaRegs 32 % 2 ^ 64),
   BOp.hostCsrR MMIO_VADDR_REG memAddr, BOp.hostCsrR COYOTE_PID_REG ctid,
   BOp.mmioWr DMA_SRC_ADDR_REG (memAddr + 4096),
   BOp.mmioRd DMA_SRC_ADDR_REG ((memAddr + 4096) % 2 ^ 64),
   BOp.mmioWr DMA_LEN_REG 1024, BOp.mmioRd DMA_LEN_REG 1024,
   BOp.mmioWr DMA_CMD_REG 1,
   BOp.mmioRd DMA_STATUS_REG 1,
   BOp.mmioRd DMA_STATUS_REG 1, BOp.mmioWr DMA_STATUS_REG 0,
   BOp.mmioRd DMA_TX_LEN_REG (txLen 1024 % 2 ^ 64)]

end MinusNw

/-- All-zero initial state of the indirect variant. -/
def init0 : MboxState :=
  { region := fun _ => 0, dmaRegs := fun _ => 0, mmioVaddr := 0, mmioCtrl := 0,
    writeStatus := 0, readStatus := 0, pidReg := 0 }

namespace Baseline

/-- Register addresses, enum JigsawRegisters of
examples/jigsaw_baseline/sw/src/main.cpp. -/
def DMA_CMD_REG : Nat := 0

/-- DMA source address register (enum JigsawRegisters). -/
def DMA_SRC_ADDR_REG : Nat := 1

/-- DMA destination address register (enum JigsawRegisters). -/
def DMA_DST_ADDR_REG : Nat := 2

/-- DMA length register (enum JigsawRegisters). -/
def DMA_LEN_REG : Nat := 3

/-- DMA status register (enum JigsawRegisters). -/
def DMA_STATUS_REG : Nat := 4

/-- Owning-process identifier register (enum JigsawRegisters). -/
def COYOTE_PID_REG : Nat := 7

/-- DMA transferred-length register (enum JigsawRegisters). -/
def COYOTE_DMA_TX_LEN_REG : Nat := 8

/-- Size in bytes of the region allocated by main of
examples/jigsaw_baseline/sw/src/main.cpp (getMem with 4*1024*1024). -/
def allocBytes : Nat := 4 * 1024 * 1024

/-- Device register file of the baseline variant (direct register access). -/
structure BState where
  regs : Nat → Nat

/-- Modelled from the spec: the baseline device side is not in the repository;
following sections 3 and 8 of the spec it is a register file behaving as pure
storage, with the section-8 device double completing a transfer instantly
when the command register is written with a start value (bit 0 set): status
becomes 1 and the transferred-length register latches txLen of the requested
length. -/
def setCSR (txLen : Nat → Nat) (s : BState) (v reg : Nat) : BState :=
  let regs1 : Nat → Nat := fun r => if r = reg then v else s.regs r
  if reg = DMA_CMD_REG ∧ v % 2 = 1 then
    { regs := fun r =>
        if r = DMA_STATUS_REG then 1
        else if r = COYOTE_DMA_TX_LEN_REG then txLen (regs1 DMA_LEN_REG)
        else regs1 r }
  else { regs := regs1 }

/-- cThread.getCSR of the baseline variant: read a device register. -/
def getCSR (s : BState) (reg : Nat) : Nat :=
  s.regs reg

/-- The DMA completion polling loop of the baseline variant (lines 59-61):
re-read the status register until it equals 1 exactly. -/
def statusPoll (s : BState) : Nat → Option (List BOp)
  | 0 => none
  | n + 1 =>
    let v := getCSR s DMA_STATUS_REG
    if dmaPollExitBaseline v then some [BOp.hostCsrR DMA_STATUS_REG v]
    else (statusPoll s n).map fun ops => BOp.hostCsrR DMA_STATUS_REG v :: ops

/-- benchmark_run of examples/jigsaw_baseline/sw/src/main.cpp (lines 35-71):
write source, destination, length and process id, start the transfer with
command value 3, poll the status register until it equals 1, then read back
status, command and transferred length. The final hex dump of 64 bytes of
host memory touches no device register and is omitted. -/
def benchmark_run (txLen : Nat → Nat) (memAddr ctid fuel : Nat) (s : BState) :
    Option (BState × List BOp) :=
  let s1 := setCSR txLen s memAddr DMA_SRC_ADDR_REG
  let s2 := setCSR txLen s1 memAddr DMA_DST_ADDR_REG
  let s3 := setCSR txLen s2 32768 DMA_LEN_REG
  let s4 := setCSR txLen s3 ctid COYOTE_PID_REG
  let s5 := setCSR txLen s4 3 DMA_CMD_REG
  match statusPoll s5 fuel with
  | none => none
  | some pollOps =>
    let v1 := getCSR s5 DMA_STATUS_REG
    let v2 := getCSR s5 DMA_CMD_REG
    let v3 := getCSR s5 COYOTE_DMA_TX_LEN_REG
    some (s5,
      [BOp.hostCsrW DMA_SRC_ADDR_REG memAddr, BOp.hostCsrW DMA_DST_ADDR_REG memAddr,
       BOp.hostCsrW DMA_LEN_REG 32768, BOp.hostCsrW COYOTE_PID_REG ctid,
       BOp.hostCsrW DMA_CMD_REG 3] ++ pollOps ++
      [BOp.hostCsrR DMA_STATUS_REG v1, BOp.hostCsrR DMA_CMD_REG v2,
       BOp.hostCsrR COYOTE_DMA_TX_LEN_REG v3])

/-- The operation trace of the baseline benchmark_run, final state dropped. -/
def benchOps (txLen : Nat → Nat) (memAddr ctid fuel : Nat) (s : BState) :
    Option (List BOp) :=
  (benchmark_run txLen memAddr ctid fuel s).map Prod.snd

/-- All-zero initial register file for the baseline variant. -/
def initB : BState :=
  { regs := fun _ => 0 }

end Baseline

/-! ## Program entry points (allocation-failure handling) -/

/-- Coarse actions of a program entry point, for the allocation-failure
behaviour: abort with a surfaced fatal error (thrown runtime error), crash on
a null-pointer dereference (an unchecked fault, not a surfaced condition),
run the benchmark, fill host memory, switch the IO device, set a CSR, invoke
a hardware transfer, check results. -/
inductive ProgAct where
  | fatalAbort
  | nullDeref
  | benchRun
  | memFill
  | ioSwitchAct
  | csrSet (val reg : Nat)
  | hwInvoke
  | resultCheck
deriving DecidableEq, Repr

/-- main of examples/jigsaw_baseline/sw/src/main.cpp (lines 76-88): allocate,
throw a runtime error when the returned pointer is null, else run the
benchmark once. The argument is the allocation outcome (none = null). -/
def jigsaw_baseline_main (alloc : Option Nat) : List ProgAct :=
  match alloc with
  | none => [ProgAct.fatalAbort]
  | some _ => [ProgAct.benchRun]

/-- main of examples/jigsaw_minus_nw/sw/src/main.cpp (lines 167-189):
allocate, throw a runtime error when the returned pointer is null, else run
the benchmark twice. -/
def jigsaw_minus_nw_main (alloc : Option Nat) : List ProgAct :=
  match alloc with
  | none => [ProgAct.fatalAbort]
  | some _ => [ProgAct.benchRun, ProgAct.benchRun]

namespace Aes

/-- AES key constants of sw/examples/aes_host_baseline/main.cpp. -/
def keyLow : Nat := 0xabf7158809cf4f3c

/-- High half of the AES key (same file). -/
def keyHigh : Nat := 0x2b7e151628aed2a6

end Aes

/-- main of sw/examples/aes_host_baseline/main.cpp (lines 35-95) after
argument parsing, on the default-device path: allocate tMem and rMem, fill
the test buffer through tMem, switch the IO device, set the two key CSRs,
invoke the transfer, compare against the cipher test vectors. The two
arguments are the allocation outcomes. The source tests neither pointer
against null: the fill loop (lines 71-74) stores through tMem
unconditionally, so a null tMem faults there (a crash, not a surfaced fatal
condition) before any hardware interaction, while rMem is never dereferenced
at all, so a null rMem changes nothing. -/
def aes_host_baseline_main (tMem _rMem : Option Nat) : List ProgAct :=
  match tMem with
  | none => [ProgAct.nullDeref]
  | some _ =>
    [ProgAct.memFill, ProgAct.ioSwitchAct,
     ProgAct.csrSet Aes.keyLow 0, ProgAct.csrSet Aes.keyHigh 1,
     ProgAct.hwInvoke, ProgAct.resultCheck]

/-! ## Theorems -/

theorem updateByte_same (r : Region) (i v : Nat) : updateByte r i v i = v := by
  simp [updateByte]

theorem updateByte_ne (r : Region) (i v j : Nat) (h : j ≠ i) :
    updateByte r i v j = r j := by
  simp [updateByte, h]

theorem writeLE_frame (n : Nat) : ∀ (r : Region) (off v j : Nat),
    j < off ∨ off + n ≤ j → writeLE r off n v j = r j := by
  induction n with
  | zero => intro r off v j _; rfl
  | succ n ih =>
    intro r off v j h
    have hj : j ≠ off := by omega
    have h' : j < off + 1 ∨ off + 1 + n ≤ j := by omega
    simp only [writeLE]
    rw [ih _ _ _ _ h', updateByte_ne _ _ _ _ hj]

theorem readLE_congr (n : Nat) : ∀ (r₁ r₂ : Region) (off : Nat),
    (∀ j, off ≤ j → j < off + n → r₁ j = r₂ j) →
    readLE r₁ off n = readLE r₂ off n := by
  induction n with
  | zero => intro _ _ _ _; rfl
  | succ n ih =>
    intro r₁ r₂ off h
    simp only [readLE]
    rw [h off (Nat.le_refl _) (by omega), ih r₁ r₂ (off + 1) (fun j h1 h2 => h j (by omega) (by omega))]

theorem mod_mul_succ_pow (v k : Nat) :
    v % 256 ^ (k + 1) = v % 256 + 256 * (v / 256 % 256 ^ k) := by
  have h1 : v % 256 ^ (k + 1) % 256 = v % 256 := by
    have : (256 : Nat) ∣ 256 ^ (k + 1) := dvd_pow_self 256 (Nat.succ_ne_zero k)
    exact Nat.mod_mod_of_dvd v this
  have h2 : v % 256 ^ (k + 1) / 256 = v / 256 % 256 ^ k := by
    have := Nat.mod_mul_right_div_self v 256 (256 ^ k)
    simpa [pow_succ, mul_comm] using this
  have h3 := Nat.div_add_mod (v % 256 ^ (k + 1)) 256
  omega

theorem readLE_writeLE (n : Nat) : ∀ (r : Region) (off v : Nat),
    readLE (writeLE r off n v) off n = v % 256 ^ n := by
  induction n with
  | zero => intro r off v; simp [readLE, writeLE, Nat.mod_one]
  | succ n ih =>
    intro r off v
    simp only [writeLE, readLE]
    rw [writeLE_frame n _ _ _ _ (Or.inl (by omega)), updateByte_same, ih]
    exact (mod_mul_succ_pow v n).symm

theorem readLE_writeLE8 (r : Region) (off v : Nat) :
    readLE (writeLE r off 8 v) off 8 = v % 2 ^ 64 := by
  rw [readLE_writeLE]
  norm_num

namespace MinusNw

theorem encodeReadRequest_opcode (r : Region) (addr : Nat) :
    encodeReadRequest r addr 24 = 0 := by
  unfold encodeReadRequest
  rw [writeLE_frame 8 _ 33 _ 24 (Or.inl (by omega)),
      writeLE_frame 8 _ 25 _ 24 (Or.inl (by omega)), updateByte_same]

theorem encodeReadRequest_addr (r : Region) (addr : Nat) :
    readLE (encodeReadRequest r addr) 25 8 = addr % 2 ^ 64 := by
  unfold encodeReadRequest
  rw [readLE_congr 8 _ (writeLE (updateByte r 24 0) 25 8 addr) 25
        (fun j h1 h2 => writeLE_frame 8 _ 33 0 j (by omega)),
      readLE_writeLE8]

theorem encodeReadRequest_len (r : Region) (addr : Nat) :
    readLE (encodeReadRequest r addr) 33 8 = 0 := by
  unfold encodeReadRequest
  rw [readLE_writeLE8, Nat.zero_mod]

theorem encodeReadRequest_frame (r : Region) (addr j : Nat)
    (h : j < 24 ∨ 41 ≤ j) :
    encodeReadRequest r addr j = r j := by
  unfold encodeReadRequest
  rw [writeLE_frame 8 _ 33 _ j (by omega), writeLE_frame 8 _ 25 _ j (by omega),
      updateByte_ne _ _ _ _ (by omega)]

theorem encodeWriteRequest_opcode (r : Region) (addr data : Nat) :
    encodeWriteRequest r addr data 24 = 1 := by
  unfold encodeWriteRequest
  rw [writeLE_frame 8 _ 41 _ 24 (Or.inl (by omega)),
      writeLE_frame 8 _ 33 _ 24 (Or.inl (by omega)),
      writeLE_frame 8 _ 25 _ 24 (Or.inl (by omega)), updateByte_same]

theorem encodeWriteRequest_addr (r : Region) (addr data : Nat) :
    readLE (encodeWriteRequest r addr data) 25 8 = addr % 2 ^ 64 := by
  unfold encodeWriteRequest
  rw [readLE_congr 8 _ (writeLE (writeLE (updateByte r 24 1) 25 8 addr) 33 8 0) 25
        (fun j h1 h2 => writeLE_frame 8 _ 41 data j (by omega)),
      readLE_congr 8 _ (writeLE (updateByte r 24 1) 25 8 addr) 25
        (fun j h1 h2 => writeLE_frame 8 _ 33 0 j (by omega)),
      readLE_writeLE8]

theorem encodeWriteRequest_len (r : Region) (addr data : Nat) :
    readLE (encodeWriteRequest r addr data) 33 8 = 0 := by
  unfold encodeWriteRequest
  rw [readLE_congr 8 _ (writeLE (writeLE (updateByte r 24 1) 25 8 addr) 33 8 0) 33
        (fun j h1 h2 => writeLE_frame 8 _ 41 data j (by omega)),
      readLE_writeLE8, Nat.zero_mod]

theorem encodeWriteRequest_data (r : Region) (addr data : Nat) :
    readLE (encodeWriteRequest r addr data) 41 8 = data % 2 ^ 64 := by
  unfold encodeWriteRequest
  rw [readLE_writeLE8]

theorem encodeWriteRequest_frame (r : Region) (addr data j : Nat)
    (h : j < 24 ∨ 49 ≤ j) :
    encodeWriteRequest r addr data j = r j := by
  unfold encodeWriteRequest
  rw [writeLE_frame 8 _ 41 _ j (by omega), writeLE_frame 8 _ 33 _ j (by omega),
      writeLE_frame 8 _ 25 _ j (by omega), updateByte_ne _ _ _ _ (by omega)]

end MinusNw

theorem read_mmio_eq (txLen : Nat → Nat) (s : MboxState) (addr : Nat) :
    read_mmio txLen s addr 1 =
      some (s.dmaRegs (addr % 2 ^ 64) % 2 ^ 64, afterRead s addr,
        Ev.csrW MinusNw.MMIO_READ_STATUS_REG 0 ::
          (encodeReadEvs addr ++
            Ev.csrW MinusNw.MMIO_CTRL_REG 1 ::
              [Ev.csrR MinusNw.MMIO_READ_STATUS_REG 1,
               Ev.memR 16 (s.dmaRegs (addr % 2 ^ 64) % 2 ^ 64)])) := by
  simp only [read_mmio, setCSR, deviceStep, pollCSR, getCSR, MinusNw.decodeResponse,
    MinusNw.MMIO_VADDR_REG, MinusNw.MMIO_CTRL_REG, MinusNw.MMIO_WRITE_STATUS_REG,
    MinusNw.MMIO_READ_STATUS_REG, MinusNw.COYOTE_PID_REG,
    MinusNw.encodeReadRequest_opcode, MinusNw.encodeReadRequest_addr,
    readLE_writeLE8, afterRead]
  norm_num
  rw [readLE_writeLE8]
  norm_num

theorem write_mmio_eq (txLen : Nat → Nat) (s : MboxState) (addr data : Nat) :
    write_mmio txLen s addr data 1 =
      some (afterWrite txLen s addr data,
        Ev.csrW MinusNw.MMIO_WRITE_STATUS_REG 0 ::
          (encodeWriteEvs addr data ++
            Ev.csrW MinusNw.MMIO_CTRL_REG 1 ::
              [Ev.csrR MinusNw.MMIO_WRITE_STATUS_REG 1])) := by
  simp only [write_mmio, setCSR, deviceStep, pollCSR, getCSR,
    MinusNw.MMIO_VADDR_REG, MinusNw.MMIO_CTRL_REG, MinusNw.MMIO_WRITE_STATUS_REG,
    MinusNw.MMIO_READ_STATUS_REG, MinusNw.COYOTE_PID_REG,
    MinusNw.encodeWriteRequest_opcode, MinusNw.encodeWriteRequest_addr,
    MinusNw.encodeWriteRequest_data, afterWrite, writeRegsUpdate]
  norm_num

theorem benchOps_spec (txLen : Nat → Nat) (memAddr ctid : Nat) (s : MboxState) :
    MinusNw.benchOps txLen memAddr ctid 1 s =
      some (MinusNw.benchExpected txLen memAddr ctid s) := by
  simp only [MinusNw.benchOps, MinusNw.benchmark_run, MinusNw.benchExpected,
    read_mmio_eq, write_mmio_eq, dmaStatusPoll, dmaPollExitIndirect,
    afterRead, afterWrite, writeRegsUpdate, setCSR, getCSR,
    MinusNw.DMA_CMD_REG, MinusNw.DMA_SRC_ADDR_REG, MinusNw.DMA_DST_ADDR_REG,
    MinusNw.DMA_LEN_REG, MinusNw.DMA_STATUS_REG, MinusNw.DMA_TX_LEN_REG,
    MinusNw.MMIO_VADDR_REG, MinusNw.MMIO_CTRL_REG, MinusNw.MMIO_WRITE_STATUS_REG,
    MinusNw.MMIO_READ_STATUS_REG, MinusNw.COYOTE_PID_REG, Option.map]
  norm_num

theorem baselineOps_spec (txLen : Nat → Nat) (memAddr ctid : Nat)
    (s : Baseline.BState) :
    Baseline.benchOps txLen memAddr ctid 1 s =
      some
        [BOp.hostCsrW Baseline.DMA_SRC_ADDR_REG memAddr,
         BOp.hostCsrW Baseline.DMA_DST_ADDR_REG memAddr,
         BOp.hostCsrW Baseline.DMA_LEN_REG 32768,
         BOp.hostCsrW Baseline.COYOTE_PID_REG ctid,
         BOp.hostCsrW Baseline.DMA_CMD_REG 3,
         BOp.hostCsrR Baseline.DMA_STATUS_REG 1,
         BOp.hostCsrR Baseline.DMA_STATUS_REG 1,
         BOp.hostCsrR Baseline.DMA_CMD_REG 3,
         BOp.hostCsrR Baseline.COYOTE_DMA_TX_LEN_REG (txLen 32768)] := by
  simp only [Baseline.benchOps, Baseline.benchmark_run, Baseline.setCSR,
    Baseline.getCSR, Baseline.statusPoll, dmaPollExitBaseline,
    Baseline.DMA_CMD_REG, Baseline.DMA_SRC_ADDR_REG, Baseline.DMA_DST_ADDR_REG,
    Baseline.DMA_LEN_REG, Baseline.DMA_STATUS_REG, Baseline.COYOTE_PID_REG,
    Baseline.COYOTE_DMA_TX_LEN_REG, Option.map]
  norm_num

theorem writeRegsUpdate_self (txLen : Nat → Nat) (dmaRegs : Nat → Nat)
    (addr data : Nat) :
    writeRegsUpdate txLen dmaRegs addr data (addr % 2 ^ 64) = data % 2 ^ 64 := by
  unfold writeRegsUpdate
  by_cases h : addr % 2 ^ 64 = MinusNw.DMA_CMD_REG ∧ data % 2 ^ 64 % 2 = 1
  · simp only [h, if_pos, h.1, MinusNw.DMA_CMD_REG, MinusNw.DMA_STATUS_REG,
      MinusNw.DMA_TX_LEN_REG]
    norm_num
  · simp only [h, if_neg, if_pos]
    simp

/-! ## Claims -/

/-- C1: in the indirect variant, encoding a mailbox write request stores
opcode 1 as one byte at region offset 24, the 8-byte target register address
at offset 25, an 8-byte length of 0 at offset 33, and the 8-byte data payload
at offset 41; encoding a read request stores opcode 0 at offset 24 with the
same address and length fields; and decoding a response reads the 8-byte
value at region offset 16. -/
theorem mailbox_codec_layout (r : Region) (addr data : Nat)
    (ha : addr < 2 ^ 64) (hd : data < 2 ^ 64) :
    MinusNw.encodeWriteRequest r addr data 24 = 1 ∧
    readLE (MinusNw.encodeWriteRequest r addr data) 25 8 = addr ∧
    readLE (MinusNw.encodeWriteRequest r addr data) 33 8 = 0 ∧
    readLE (MinusNw.encodeWriteRequest r addr data) 41 8 = data ∧
    MinusNw.encodeReadRequest r addr 24 = 0 ∧
    readLE (MinusNw.encodeReadRequest r addr) 25 8 = addr ∧
    readLE (MinusNw.encodeReadRequest r addr) 33 8 = 0 ∧
    MinusNw.decodeResponse r = readLE r 16 8 :=
  ⟨MinusNw.encodeWriteRequest_opcode r addr data,
   by rw [MinusNw.encodeWriteRequest_addr, Nat.mod_eq_of_lt ha],
   MinusNw.encodeWriteRequest_len r addr data,
   by rw [MinusNw.encodeWriteRequest_data, Nat.mod_eq_of_lt hd],
   MinusNw.encodeReadRequest_opcode r addr,
   by rw [MinusNw.encodeReadRequest_addr, Nat.mod_eq_of_lt ha],
   MinusNw.encodeReadRequest_len r addr,
   rfl⟩

/-- Witness for C1 at region 0, address 5, data 7. -/
theorem mailbox_codec_layout_inst :
    (5 : Nat) < 2 ^ 64 ∧ (7 : Nat) < 2 ^ 64 ∧
    (MinusNw.encodeWriteRequest (fun _ => 0) 5 7 24 = 1 ∧
     readLE (MinusNw.encodeWriteRequest (fun _ => 0) 5 7) 25 8 = 5 ∧
     readLE (MinusNw.encodeWriteRequest (fun _ => 0) 5 7) 33 8 = 0 ∧
     readLE (MinusNw.encodeWriteRequest (fun _ => 0) 5 7) 41 8 = 7 ∧
     MinusNw.encodeReadRequest (fun _ => 0) 5 24 = 0 ∧
     readLE (MinusNw.encodeReadRequest (fun _ => 0) 5) 25 8 = 5 ∧
     readLE (MinusNw.encodeReadRequest (fun _ => 0) 5) 33 8 = 0 ∧
     MinusNw.decodeResponse (fun _ => 0) = readLE (fun _ => 0) 16 8) :=
  ⟨by norm_num, by norm_num,
   mailbox_codec_layout (fun _ => 0) 5 7 (by norm_num) (by norm_num)⟩

/-- C10: encoding a read request modifies only the opcode (byte 24), address
(bytes 25-32) and length (bytes 33-40) fields of the mailbox region; the
write-data field (bytes 41-48) and the response field (bytes 16-23) keep
their previous values. The encoding is a pure function of the region, so it
has no side effects outside it. -/
theorem encode_read_request_frame (r : Region) (addr j : Nat)
    (h : j < 24 ∨ 41 ≤ j) :
    MinusNw.encodeReadRequest r addr j = r j ∧
    MinusNw.decodeResponse (MinusNw.encodeReadRequest r addr) =
      MinusNw.decodeResponse r ∧
    readLE (MinusNw.encodeReadRequest r addr) 41 8 = readLE r 41 8 :=
  ⟨MinusNw.encodeReadRequest_frame r addr j h,
   readLE_congr 8 _ r 16 (fun i h1 h2 =>
     MinusNw.encodeReadRequest_frame r addr i (Or.inl (by omega))),
   readLE_congr 8 _ r 41 (fun i h1 h2 =>
     MinusNw.encodeReadRequest_frame r addr i (Or.inr (by omega)))⟩

/-- Witness for C10 at region id, address 3, byte 17 (inside the response
field). -/
theorem encode_read_request_frame_inst :
    ((17 : Nat) < 24 ∨ 41 ≤ (17 : Nat)) ∧
    (MinusNw.encodeReadRequest (fun i => i) 3 17 = 17 ∧
     MinusNw.decodeResponse (MinusNw.encodeReadRequest (fun i => i) 3) =
       MinusNw.decodeResponse (fun i => i) ∧
     readLE (MinusNw.encodeReadRequest (fun i => i) 3) 41 8 =
       readLE (fun i => i) 41 8) :=
  ⟨Or.inl (by norm_num),
   encode_read_request_frame (fun i => i) 3 17 (Or.inl (by norm_num))⟩

/-- C2: every proxied register read performs, in this order: (1) clear the
read-completion status register to 0; (2) encode a read request into the
mailbox region; (3) set the mailbox control/trigger register to 1; (4) poll
until the read-completion status register equals 1; (5) decode the 8-byte
response from the mailbox and return it as the read value. Stated as the
exact event trace of read_mmio under the synchronous device. -/
theorem read_mmio_protocol_order (txLen : Nat → Nat) (s : MboxState) (addr : Nat) :
    ∃ v s', read_mmio txLen s addr 1 =
        some (v, s',
          Ev.csrW MinusNw.MMIO_READ_STATUS_REG 0 ::
            (encodeReadEvs addr ++
              Ev.csrW MinusNw.MMIO_CTRL_REG 1 ::
                [Ev.csrR MinusNw.MMIO_READ_STATUS_REG 1, Ev.memR 16 v])) ∧
      v = MinusNw.decodeResponse s'.region :=
  ⟨s.dmaRegs (addr % 2 ^ 64) % 2 ^ 64, afterRead s addr, read_mmio_eq txLen s addr,
   by
    show _ = MinusNw.decodeResponse (afterRead s addr).region
    unfold afterRead MinusNw.decodeResponse
    rw [readLE_writeLE8]⟩

/-- C3: for every proxied mailbox operation (read or write), all request
fields (opcode at byte 24, address, length, and for writes the data payload)
are stored into the mailbox region strictly before the control/trigger
register is set to 1, and no store into the region occurs after the trigger:
the trace is the status clear, then exactly the encode stores, then the
trigger, then events none of which is a region store. -/
theorem request_fields_before_trigger (txLen : Nat → Nat) (s t : MboxState)
    (wAddr wData rAddr : Nat) :
    (∃ s' post,
      write_mmio txLen s wAddr wData 1 =
        some (s',
          (Ev.csrW MinusNw.MMIO_WRITE_STATUS_REG 0 :: encodeWriteEvs wAddr wData) ++
            Ev.csrW MinusNw.MMIO_CTRL_REG 1 :: post) ∧
      post.all (fun e => !e.isMemW) = true) ∧
    (∃ v s' post,
      read_mmio txLen t rAddr 1 =
        some (v, s',
          (Ev.csrW MinusNw.MMIO_READ_STATUS_REG 0 :: encodeReadEvs rAddr) ++
            Ev.csrW MinusNw.MMIO_CTRL_REG 1 :: post) ∧
      post.all (fun e => !e.isMemW) = true) :=
  ⟨⟨afterWrite txLen s wAddr wData, [Ev.csrR MinusNw.MMIO_WRITE_STATUS_REG 1],
    by rw [write_mmio_eq]; rfl, by rfl⟩,
   ⟨t.dmaRegs (rAddr % 2 ^ 64) % 2 ^ 64, afterRead t rAddr,
    [Ev.csrR MinusNw.MMIO_READ_STATUS_REG 1,
     Ev.memR 16 (t.dmaRegs (rAddr % 2 ^ 64) % 2 ^ 64)],
    by rw [read_mmio_eq]; rfl, by rfl⟩⟩

/-- C8: for all registers R and values V reachable through the indirect path,
write_mmio of V to R followed by read_mmio of R returns V, with the device
modelled as pure storage (plus the command-register transfer double, which
preserves the stored command value). -/
theorem write_read_roundtrip (txLen : Nat → Nat) (s : MboxState) (R V : Nat)
    (hV : V < 2 ^ 64) :
    ∃ s₁ tr₁ s₂ tr₂,
      write_mmio txLen s R V 1 = some (s₁, tr₁) ∧
      read_mmio txLen s₁ R 1 = some (V, s₂, tr₂) := by
  have h1 : (afterWrite txLen s R V).dmaRegs (R % 2 ^ 64) % 2 ^ 64 = V := by
    show writeRegsUpdate txLen s.dmaRegs R V (R % 2 ^ 64) % 2 ^ 64 = V
    rw [writeRegsUpdate_self, Nat.mod_mod_of_dvd _ dvd_rfl, Nat.mod_eq_of_lt hV]
  have h2 := read_mmio_eq txLen (afterWrite txLen s R V) R
  rw [h1] at h2
  exact ⟨afterWrite txLen s R V, _, afterRead (afterWrite txLen s R V) R, _,
    write_mmio_eq txLen s R V, h2⟩

/-- Witness for C8 with the identity transfer double, the all-zero initial
state, register 8 and value 7. -/
theorem write_read_roundtrip_inst :
    (7 : Nat) < 2 ^ 64 ∧
    (∃ s₁ tr₁ s₂ tr₂,
      write_mmio (fun n => n) init0 8 7 1 = some (s₁, tr₁) ∧
      read_mmio (fun n => n) s₁ 8 1 = some (7, s₂, tr₂)) :=
  ⟨by norm_num,
   write_read_roundtrip (fun n => n) init0 8 7 (by norm_num)⟩

/-- C4 counterexample: status value 3 has the completion bit (bit 0) set, the
masked poll of the indirect variant accepts it, but the poll of the baseline
compares the whole register against 1 and does not recognise it as
complete. -/
theorem baseline_poll_equality_cex :
    (3 : Nat) &&& 1 = 1 ∧ dmaPollExitIndirect 3 = true ∧
    dmaPollExitBaseline 3 = false := by
  decide

/-- C4 amended: only the indirect variant detects DMA completion through the
bit-0 mask (any status value with bit 0 set exits the poll); the baseline
variant exits its poll only on exact equality of the whole status register
with 1, so a status value carrying additional bits is not recognised as
complete there. -/
theorem dma_poll_predicates :
    (∀ v, dmaPollExitIndirect v = true ↔ v % 2 = 1) ∧
    (∀ v, dmaPollExitBaseline v = true ↔ v = 1) := by
  constructor
  · intro v
    simp [dmaPollExitIndirect, Nat.and_one_is_mod]
  · intro v
    simp [dmaPollExitBaseline]

/-- C5 counterexample: a complete concrete baseline run (identity transfer
double, buffer at 8192, thread id 7, all-zero initial registers) whose
operation trace contains no write of 0 to the DMA status register: the
baseline variant never clears the status after observing completion. -/
theorem baseline_no_status_clear_cex :
    Baseline.benchOps (fun n => n) 8192 7 1 Baseline.initB =
      some
        [BOp.hostCsrW Baseline.DMA_SRC_ADDR_REG 8192,
         BOp.hostCsrW Baseline.DMA_DST_ADDR_REG 8192,
         BOp.hostCsrW Baseline.DMA_LEN_REG 32768,
         BOp.hostCsrW Baseline.COYOTE_PID_REG 7,
         BOp.hostCsrW Baseline.DMA_CMD_REG 3,
         BOp.hostCsrR Baseline.DMA_STATUS_REG 1,
         BOp.hostCsrR Baseline.DMA_STATUS_REG 1,
         BOp.hostCsrR Baseline.DMA_CMD_REG 3,
         BOp.hostCsrR Baseline.COYOTE_DMA_TX_LEN_REG 32768] ∧
    BOp.hostCsrW Baseline.DMA_STATUS_REG 0 ∉
      [BOp.hostCsrW Baseline.DMA_SRC_ADDR_REG 8192,
       BOp.hostCsrW Baseline.DMA_DST_ADDR_REG 8192,
       BOp.hostCsrW Baseline.DMA_LEN_REG 32768,
       BOp.hostCsrW Baseline.COYOTE_PID_REG 7,
       BOp.hostCsrW Baseline.DMA_CMD_REG 3,
       BOp.hostCsrR Baseline.DMA_STATUS_REG 1,
       BOp.hostCsrR Baseline.DMA_STATUS_REG 1,
       BOp.hostCsrR Baseline.DMA_CMD_REG 3,
       BOp.hostCsrR Baseline.COYOTE_DMA_TX_LEN_REG 32768] :=
  ⟨baselineOps_spec (fun n => n) 8192 7 Baseline.initB, by decide⟩

/-- C5 amended: after the DMA status has been observed complete, the indirect
variant writes 0 to the DMA status register before the transfer sequence
finishes; the baseline variant never writes 0 to its DMA status register. -/
theorem dma_status_clear_by_variant (txLen tb : Nat → Nat)
    (memAddr ctid mb cb : Nat) (s : MboxState) (sb : Baseline.BState) :
    (∃ pre post, MinusNw.benchOps txLen memAddr ctid 1 s =
        some (pre ++ BOp.mmioWr MinusNw.DMA_STATUS_REG 0 :: post) ∧
      pre.getLast? = some (BOp.mmioRd MinusNw.DMA_STATUS_REG 1)) ∧
    (∃ bl, Baseline.benchOps tb mb cb 1 sb = some bl ∧
      BOp.hostCsrW Baseline.DMA_STATUS_REG 0 ∉ bl) := by
  constructor
  · refine ⟨[BOp.hostCsrW MinusNw.COYOTE_PID_REG ctid,
      BOp.hostCsrW MinusNw.MMIO_VADDR_REG memAddr,
      BOp.mmioRd MinusNw.DMA_SRC_ADDR_REG (s.dmaRegs 8 % 2 ^ 64),
      BOp.mmioRd MinusNw.DMA_DST_ADDR_REG (s.dmaRegs 16 % 2 ^ 64),
      BOp.mmioRd MinusNw.DMA_TX_LEN_REG (s.dmaRegs 56 % 2 ^ 64),
      BOp.mmioRd MinusNw.DMA_STATUS_REG (s.dmaRegs 32 % 2 ^ 64),
      BOp.hostCsrR MinusNw.MMIO_VADDR_REG memAddr,
      BOp.hostCsrR MinusNw.COYOTE_PID_REG ctid,
      BOp.mmioWr MinusNw.DMA_SRC_ADDR_REG (memAddr + 4096),
      BOp.mmioRd MinusNw.DMA_SRC_ADDR_REG ((memAddr + 4096) % 2 ^ 64),
      BOp.mmioWr MinusNw.DMA_LEN_REG 1024, BOp.mmioRd MinusNw.DMA_LEN_REG 1024,
      BOp.mmioWr MinusNw.DMA_CMD_REG 1,
      BOp.mmioRd MinusNw.DMA_STATUS_REG 1,
      BOp.mmioRd MinusNw.DMA_STATUS_REG 1],
      [BOp.mmioRd MinusNw.DMA_TX_LEN_REG (txLen 1024 % 2 ^ 64)], ?_, rfl⟩
    rw [benchOps_spec]
    rfl
  · refine ⟨_, baselineOps_spec tb mb cb sb, ?_⟩
    simp [Baseline.DMA_STATUS_REG, Baseline.DMA_SRC_ADDR_REG,
      Baseline.DMA_DST_ADDR_REG, Baseline.DMA_LEN_REG, Baseline.COYOTE_PID_REG,
      Baseline.DMA_CMD_REG, Baseline.COYOTE_DMA_TX_LEN_REG]

/-- C6 counterexample: a run with a shortened simulated transfer (the double
returns 512 although 1024 was requested) produces an operation trace with
exactly the same shape (same operations on the same registers in the same
order) as a run whose transferred length matches: no comparison against the
requested length takes place and no extra reporting operation appears; the
run merely ends by reading back 512. -/
theorem tx_len_mismatch_silent_cex :
    MinusNw.benchOps (fun _ => 512) 8192 7 1 init0 =
      some
        [BOp.hostCsrW MinusNw.COYOTE_PID_REG 7,
         BOp.hostCsrW MinusNw.MMIO_VADDR_REG 8192,
         BOp.mmioRd MinusNw.DMA_SRC_ADDR_REG 0,
         BOp.mmioRd MinusNw.DMA_DST_ADDR_REG 0,
         BOp.mmioRd MinusNw.DMA_TX_LEN_REG 0,
         BOp.mmioRd MinusNw.DMA_STATUS_REG 0,
         BOp.hostCsrR MinusNw.MMIO_VADDR_REG 8192,
         BOp.hostCsrR MinusNw.COYOTE_PID_REG 7,
         BOp.mmioWr MinusNw.DMA_SRC_ADDR_REG 12288,
         BOp.mmioRd MinusNw.DMA_SRC_ADDR_REG 12288,
         BOp.mmioWr MinusNw.DMA_LEN_REG 1024,
         BOp.mmioRd MinusNw.DMA_LEN_REG 1024,
         BOp.mmioWr MinusNw.DMA_CMD_REG 1,
         BOp.mmioRd MinusNw.DMA_STATUS_REG 1,
         BOp.mmioRd MinusNw.DMA_STATUS_REG 1,
         BOp.mmioWr MinusNw.DMA_STATUS_REG 0,
         BOp.mmioRd MinusNw.DMA_TX_LEN_REG 512] ∧
    (MinusNw.benchOps (fun _ => 512) 8192 7 1 init0).map (List.map BOp.tag) =
      (MinusNw.benchOps (fun n => n) 8192 7 1 init0).map (List.map BOp.tag) ∧
    (512 : Nat) ≠ 1024 := by
  refine ⟨?_, ?_, by norm_num⟩
  · rw [benchOps_spec]; rfl
  · rw [benchOps_spec, benchOps_spec]; rfl

/-- C6 amended: in both variants, after the completed DMA transfer the
controller reads the transferred-length register and reports its value; it
performs no comparison against the requested length, and the operation shape
of the run is identical whatever transferred length the device returns (in
particular on a mismatch): the trace simply ends with the transferred-length
read. -/
theorem tx_len_read_reported_only (f g : Nat → Nat) (memAddr ctid : Nat)
    (s t : MboxState) (fb gb : Nat → Nat) (mb cb : Nat)
    (sb tb : Baseline.BState) :
    ((MinusNw.benchOps f memAddr ctid 1 s).map (List.map BOp.tag) =
        (MinusNw.benchOps g memAddr ctid 1 t).map (List.map BOp.tag) ∧
      ∃ l, MinusNw.benchOps f memAddr ctid 1 s = some l ∧
        l.getLast? = some (BOp.mmioRd MinusNw.DMA_TX_LEN_REG (f 1024 % 2 ^ 64))) ∧
    ((Baseline.benchOps fb mb cb 1 sb).map (List.map BOp.tag) =
        (Baseline.benchOps gb mb cb 1 tb).map (List.map BOp.tag) ∧
      ∃ bl, Baseline.benchOps fb mb cb 1 sb = some bl ∧
        bl.getLast? =
          some (BOp.hostCsrR Baseline.COYOTE_DMA_TX_LEN_REG (fb 32768))) := by
  constructor
  · refine ⟨?_, MinusNw.benchExpected f memAddr ctid s, benchOps_spec f memAddr ctid s, rfl⟩
    rw [benchOps_spec, benchOps_spec]
    rfl
  · refine ⟨?_, _, baselineOps_spec fb mb cb sb, rfl⟩
    rw [baselineOps_spec, baselineOps_spec]
    rfl

/-- C7 counterexample: the complete concrete indirect run (identity transfer
double, buffer at 8192, thread id 7, all-zero initial registers) writes 1024
(not 4096) to the DMA length register, never writes the destination-address
register at all (the value mem+4096 goes to the source-address register),
and its final transferred-length read returns 1024, not 4096. -/
theorem indirect_scenario_cex :
    MinusNw.benchOps (fun n => n) 8192 7 1 init0 =
      some
        [BOp.hostCsrW MinusNw.COYOTE_PID_REG 7,
         BOp.hostCsrW MinusNw.MMIO_VADDR_REG 8192,
         BOp.mmioRd MinusNw.DMA_SRC_ADDR_REG 0,
         BOp.mmioRd MinusNw.DMA_DST_ADDR_REG 0,
         BOp.mmioRd MinusNw.DMA_TX_LEN_REG 0,
         BOp.mmioRd MinusNw.DMA_STATUS_REG 0,
         BOp.hostCsrR MinusNw.MMIO_VADDR_REG 8192,
         BOp.hostCsrR MinusNw.COYOTE_PID_REG 7,
         BOp.mmioWr MinusNw.DMA_SRC_ADDR_REG 12288,
         BOp.mmioRd MinusNw.DMA_SRC_ADDR_REG 12288,
         BOp.mmioWr MinusNw.DMA_LEN_REG 1024,
         BOp.mmioRd MinusNw.DMA_LEN_REG 1024,
         BOp.mmioWr MinusNw.DMA_CMD_REG 1,
         BOp.mmioRd MinusNw.DMA_STATUS_REG 1,
         BOp.mmioRd MinusNw.DMA_STATUS_REG 1,
         BOp.mmioWr MinusNw.DMA_STATUS_REG 0,
         BOp.mmioRd MinusNw.DMA_TX_LEN_REG 1024] ∧
    BOp.mmioWr MinusNw.DMA_LEN_REG 4096 ∉
      [BOp.hostCsrW MinusNw.COYOTE_PID_REG 7,
       BOp.hostCsrW MinusNw.MMIO_VADDR_REG 8192,
       BOp.mmioRd MinusNw.DMA_SRC_ADDR_REG 0,
       BOp.mmioRd MinusNw.DMA_DST_ADDR_REG 0,
       BOp.mmioRd MinusNw.DMA_TX_LEN_REG 0,
       BOp.mmioRd MinusNw.DMA_STATUS_REG 0,
       BOp.hostCsrR MinusNw.MMIO_VADDR_REG 8192,
       BOp.hostCsrR MinusNw.COYOTE_PID_REG 7,
       BOp.mmioWr MinusNw.DMA_SRC_ADDR_REG 12288,
       BOp.mmioRd MinusNw.DMA_SRC_ADDR_REG 12288,
       BOp.mmioWr MinusNw.DMA_LEN_REG 1024,
       BOp.mmioRd MinusNw.DMA_LEN_REG 1024,
       BOp.mmioWr MinusNw.DMA_CMD_REG 1,
       BOp.mmioRd MinusNw.DMA_STATUS_REG 1,
       BOp.mmioRd MinusNw.DMA_STATUS_REG 1,
       BOp.mmioWr MinusNw.DMA_STATUS_REG 0,
       BOp.mmioRd MinusNw.DMA_TX_LEN_REG 1024] ∧
    (List.countP
      (fun op => ((BOp.tag op).1 == 2) && ((BOp.tag op).2 == MinusNw.DMA_DST_ADDR_REG))
      [BOp.hostCsrW MinusNw.COYOTE_PID_REG 7,
       BOp.hostCsrW MinusNw.MMIO_VADDR_REG 8192,
       BOp.mmioRd MinusNw.DMA_SRC_ADDR_REG 0,
       BOp.mmioRd MinusNw.DMA_DST_ADDR_REG 0,
       BOp.mmioRd MinusNw.DMA_TX_LEN_REG 0,
       BOp.mmioRd MinusNw.DMA_STATUS_REG 0,
       BOp.hostCsrR MinusNw.MMIO_VADDR_REG 8192,
       BOp.hostCsrR MinusNw.COYOTE_PID_REG 7,
       BOp.mmioWr MinusNw.DMA_SRC_ADDR_REG 12288,
       BOp.mmioRd MinusNw.DMA_SRC_ADDR_REG 12288,
       BOp.mmioWr MinusNw.DMA_LEN_REG 1024,
       BOp.mmioRd MinusNw.DMA_LEN_REG 1024,
       BOp.mmioWr MinusNw.DMA_CMD_REG 1,
       BOp.mmioRd MinusNw.DMA_STATUS_REG 1,
       BOp.mmioRd MinusNw.DMA_STATUS_REG 1,
       BOp.mmioWr MinusNw.DMA_STATUS_REG 0,
       BOp.mmioRd MinusNw.DMA_TX_LEN_REG 1024]) = 0 ∧
    BOp.mmioRd MinusNw.DMA_TX_LEN_REG 4096 ∉
      [BOp.mmioWr MinusNw.DMA_STATUS_REG 0,
       BOp.mmioRd MinusNw.DMA_TX_LEN_REG 1024] := by
  refine ⟨?_, by decide, by decide, by decide⟩
  rw [benchOps_spec]
  rfl

/-- C7 amended: the transfer scenario of the indirect variant operates on a
16 KiB region and configures a 1024-byte transfer, writing memAddr + 4096 to
the DMA source-address register (the destination-address register is never
written), triggers it by writing command value 1 to the command register,
polls the status register until bit 0 is set, and the final
transferred-length read returns the transferred length of the double for the
requested 1024 bytes (1024 under a faithful device). -/
theorem indirect_transfer_scenario (txLen : Nat → Nat) (memAddr ctid : Nat)
    (s : MboxState) :
    MinusNw.allocBytes = 16384 ∧
    ∃ l, MinusNw.benchOps txLen memAddr ctid 1 s = some l ∧
      BOp.mmioWr MinusNw.DMA_SRC_ADDR_REG (memAddr + 4096) ∈ l ∧
      BOp.mmioWr MinusNw.DMA_LEN_REG 1024 ∈ l ∧
      BOp.mmioWr MinusNw.DMA_CMD_REG 1 ∈ l ∧
      List.countP
        (fun op => ((BOp.tag op).1 == 2) && ((BOp.tag op).2 == MinusNw.DMA_DST_ADDR_REG)) l = 0 ∧
      l.getLast? = some (BOp.mmioRd MinusNw.DMA_TX_LEN_REG (txLen 1024 % 2 ^ 64)) := by
  refine ⟨by norm_num [MinusNw.allocBytes],
    MinusNw.benchExpected txLen memAddr ctid s, benchOps_spec txLen memAddr ctid s,
    ?_, ?_, ?_, ?_, rfl⟩
  · simp [MinusNw.benchExpected]
  · simp [MinusNw.benchExpected]
  · simp [MinusNw.benchExpected]
  · simp [MinusNw.benchExpected, MinusNw.DMA_DST_ADDR_REG, BOp.tag,
      MinusNw.DMA_SRC_ADDR_REG, MinusNw.DMA_LEN_REG, MinusNw.DMA_CMD_REG,
      MinusNw.DMA_STATUS_REG, MinusNw.DMA_TX_LEN_REG, List.countP_cons]

/-- C9 counterexample: when the second allocation of the AES host program
returns no usable memory (null), the program does not abort at all: it
proceeds through the whole run, hardware invocation included, because the
source never tests either returned pointer against null. -/
theorem aes_alloc_unchecked_cex :
    aes_host_baseline_main (some 0) none =
      [ProgAct.memFill, ProgAct.ioSwitchAct,
       ProgAct.csrSet Aes.keyLow 0, ProgAct.csrSet Aes.keyHigh 1,
       ProgAct.hwInvoke, ProgAct.resultCheck] ∧
    ProgAct.fatalAbort ∉ aes_host_baseline_main (some 0) none ∧
    ProgAct.hwInvoke ∈ aes_host_baseline_main (some 0) none := by
  refine ⟨rfl, ?_, ?_⟩ <;> decide

/-- C9 amended: the two jigsaw programs surface a null allocation result
immediately as a fatal abort, before any hardware interaction and with no
retry; the AES host program performs no null check on either of its two
allocations: a null first allocation is never surfaced as a fatal condition
but crashes the run through the unchecked dereference in the fill loop
(before any hardware interaction), and a null second allocation goes
entirely undetected, the run proceeding through the hardware invocation
without any abort. -/
theorem alloc_failure_by_program :
    jigsaw_baseline_main none = [ProgAct.fatalAbort] ∧
    jigsaw_minus_nw_main none = [ProgAct.fatalAbort] ∧
    (∀ r, aes_host_baseline_main none r = [ProgAct.nullDeref]) ∧
    (∀ v r, ProgAct.fatalAbort ∉ aes_host_baseline_main (some v) r ∧
      ProgAct.hwInvoke ∈ aes_host_baseline_main (some v) r) := by
  refine ⟨rfl, rfl, fun r => rfl, fun v r => ⟨?_, ?_⟩⟩ <;>
    simp [aes_host_baseline_main]

end Coyote
